import Mathlib

/-!
Verification development for the Robin backend's duplex streaming orchestrator
(`app/services/bedrock_streaming.py`, `app/services/gateway.py`,
`app/api/websocket.py`, `app/services/dynamodb.py`).

The Python source is shallowly embedded: pure fragments become Lean functions,
the event-processing loops become folds over explicit event lists, fallible
operations return `Except`/`Option`, and the two concurrently scheduled tasks
are modelled by explicit interleavings of atomic steps.
-/

namespace Robin

/-! ## JSON values (Python dict/list/str/int/bool/None payloads) -/

/-- A JSON value, as handled by Python's `json` module in the source.
Numbers are restricted to integers, which is all the source produces. -/
inductive JVal where
  | null : JVal
  | bool (b : Bool) : JVal
  | num (n : Int) : JVal
  | str (s : String) : JVal
  | arr (xs : List JVal) : JVal
  | obj (fields : List (String × JVal)) : JVal

/-- String escaping performed by `json.dumps` for the characters that can
occur in the payloads handled here (backslash and double quote). -/
def jescape (s : String) : String :=
  String.mk (s.data.foldr
    (fun c acc =>
      if c = '"' then '\\' :: '"' :: acc
      else if c = '\\' then '\\' :: '\\' :: acc
      else c :: acc) [])

mutual

/-- Embeds Python `json.dumps` (default separators) on the values above. -/
def jdump : JVal → String
  | JVal.null => "null"
  | JVal.bool b => if b then "true" else "false"
  | JVal.num n => toString n
  | JVal.str s => "\"" ++ jescape s ++ "\""
  | JVal.arr xs => "[" ++ jdumpItems xs ++ "]"
  | JVal.obj fs => "\x7b" ++ jdumpFields fs ++ "\x7d"

/-- Comma-separated serialization of JSON array elements. -/
def jdumpItems : List JVal → String
  | [] => ""
  | [x] => jdump x
  | x :: xs => jdump x ++ ", " ++ jdumpItems xs

/-- Comma-separated serialization of JSON object fields. -/
def jdumpFields : List (String × JVal) → String
  | [] => ""
  | [(k, v)] => "\"" ++ jescape k ++ "\": " ++ jdump v
  | (k, v) :: fs => "\"" ++ jescape k ++ "\": " ++ jdump v ++ ", " ++ jdumpFields fs

end

/-! ## Base64 (Python `base64.b64encode`, RFC 4648 standard alphabet) -/

/-- The standard base64 alphabet. -/
def b64Alphabet : List Char :=
  "ABCDEFGHIJKLMNOPQRSTUVWXYZabcdefghijklmnopqrstuvwxyz0123456789+/".data

/-- Character for a 6-bit group. -/
def b64Char (n : Nat) : Char := b64Alphabet.getD n '='

/-- Base64-encode a byte list, three bytes at a time, with `=` padding,
exactly as `base64.b64encode` does. -/
def b64Chunks : List Nat → List Char
  | [] => []
  | [b0] =>
      [b64Char (b0 / 4), b64Char (b0 % 4 * 16), '=', '=']
  | [b0, b1] =>
      [b64Char (b0 / 4), b64Char (b0 % 4 * 16 + b1 / 16), b64Char (b1 % 16 * 4), '=']
  | b0 :: b1 :: b2 :: rest =>
      b64Char (b0 / 4) :: b64Char (b0 % 4 * 16 + b1 / 16) ::
      b64Char (b1 % 16 * 4 + b2 / 64) :: b64Char (b2 % 64) :: b64Chunks rest

/-- Embeds `base64.b64encode(chunk).decode('utf-8')` from
`BedrockStreaming._process_audio_input`. -/
def b64Encode (bs : List Nat) : String := String.mk (b64Chunks bs)

/-! ## Wire events sent to the model transport

Each constructor corresponds to one JSON envelope built by the
`BedrockStreaming._send_*` helpers; the fields are the variable parts
(the correlation identifiers and payload), the fixed schema fields
(inference configuration, media types, roles, `interactive`) being
determined by the constructor. -/

/-- An event sent on the Bedrock bidirectional stream. -/
inductive WireEvent where
  | sessionStart : WireEvent
  | promptStart (promptName : String) : WireEvent
  | contentStartText (promptName contentName : String) : WireEvent
  | textInput (promptName contentName content : String) : WireEvent
  | contentStartAudio (promptName contentName : String) : WireEvent
  | audioInput (promptName contentName content : String) : WireEvent
  | contentStartTool (promptName contentName toolUseId : String) : WireEvent
  | toolResult (promptName contentName content : String) : WireEvent
  | contentEnd (promptName contentName : String) : WireEvent
  | promptEnd (promptName : String) : WireEvent
  | sessionEnd : WireEvent
deriving DecidableEq

/-! ## Input relay (`websocket.py` audio generator + `_process_audio_input`) -/

/-- One inbound client websocket frame, as seen by the generator
`audio_input_stream` in `WebSocketHandler.handle_audio_stream`. -/
inductive ClientFrame where
  | binary (data : List Nat) : ClientFrame
  | control (ty : String) : ClientFrame
  | badText : ClientFrame
  | disconnect : ClientFrame
deriving DecidableEq

/-- Embeds the generator `audio_input_stream` (websocket.py lines 24-42):
binary frames are yielded as byte chunks; a text frame whose parsed
JSON has type "end" breaks; a text frame that fails to parse raises and
the handler breaks; any other control message is ignored; a disconnect
(or any receive error) breaks. Returns the list of yielded chunks. -/
def audio_input_stream : List ClientFrame → List (List Nat)
  | [] => []
  | ClientFrame.binary d :: rest => d :: audio_input_stream rest
  | ClientFrame.control ty :: rest =>
      if ty = "end" then [] else audio_input_stream rest
  | ClientFrame.badText :: _ => []
  | ClientFrame.disconnect :: _ => []

/-- Embeds `BedrockStreaming._process_audio_input`: for each chunk of the
input stream, if the chunk is truthy (non-empty bytes) an `audioInput`
event carrying its base64 encoding is sent; empty chunks are skipped by
the `if audio_chunk:` guard. -/
def process_audio_input (promptName contentName : String) :
    List (List Nat) → List WireEvent
  | [] => []
  | chunk :: rest =>
      if chunk.isEmpty then process_audio_input promptName contentName rest
      else WireEvent.audioInput promptName contentName (b64Encode chunk) ::
           process_audio_input promptName contentName rest

/-- Specification-side count: the number of binary frames the client
delivers before the relay terminates (end signal, bad text, disconnect). -/
def binaryFrameCount : List ClientFrame → Nat
  | [] => 0
  | ClientFrame.binary _ :: rest => 1 + binaryFrameCount rest
  | ClientFrame.control ty :: rest =>
      if ty = "end" then 0 else binaryFrameCount rest
  | ClientFrame.badText :: _ => 0
  | ClientFrame.disconnect :: _ => 0

/-- Specification-side: the byte contents actually forwarded by the relay —
the non-empty binary frames arriving before the relay terminates. -/
def forwardedContents : List ClientFrame → List (List Nat)
  | [] => []
  | ClientFrame.binary d :: rest =>
      if d.isEmpty then forwardedContents rest else d :: forwardedContents rest
  | ClientFrame.control ty :: rest =>
      if ty = "end" then [] else forwardedContents rest
  | ClientFrame.badText :: _ => []
  | ClientFrame.disconnect :: _ => []

/-! ## The model transport and the coordinator (`stream_conversation`)

Each call `await self._send_raw_event(...)` is one send attempt on the
transport.  The transport assigns an outcome to each attempt in order:
`none` means the event is delivered, `some e` means the send raises the
exception message `e`.  The coordinator itself holds no try/except around
the handshake sends or the teardown sends; only `asyncio.gather` of the
two tasks is guarded (lines 101-104) before the `finally` block. -/

/-- Outcome of each successive send attempt on the stream
(`stream_response.input_stream.send`). -/
structure Transport where
  res : Nat → Option String

/-- Events delivered so far, and the number of send attempts made. -/
structure TState where
  sent : List WireEvent
  idx : Nat
deriving DecidableEq

/-- One `_send_raw_event` call: a failing attempt delivers nothing and
raises; a successful one appends the event. -/
def send1 (tr : Transport) (ev : WireEvent) (s : TState) : TState × Option String :=
  match tr.res s.idx with
  | none => (⟨s.sent ++ [ev], s.idx + 1⟩, none)
  | some e => (⟨s.sent, s.idx + 1⟩, some e)

/-- Sequential sends; the first raised exception aborts the remainder,
as consecutive unguarded `await` statements do. -/
def sendSeq (tr : Transport) : List WireEvent → TState → TState × Option String
  | [], s => (s, none)
  | ev :: rest, s =>
      match send1 tr ev s with
      | (s', none) => sendSeq tr rest s'
      | (s', some e) => (s', some e)

/-- The six handshake events of `stream_conversation` lines 86-91:
`_send_session_start`, `_send_prompt_start`, `_send_system_prompt`
(contentStart TEXT / textInput / contentEnd), `_send_audio_content_start`.
`p`, `c`, `ac` are the `uuid4` prompt/content/audio-content names and
`sys` the text returned by `get_system_prompt`. -/
def handshakeEvents (p c ac sys : String) : List WireEvent :=
  [WireEvent.sessionStart,
   WireEvent.promptStart p,
   WireEvent.contentStartText p c,
   WireEvent.textInput p c sys,
   WireEvent.contentEnd p c,
   WireEvent.contentStartAudio p ac]

/-- Embeds `BedrockStreaming.stream_conversation` (lines 65-114).
`taskEvs` are the sends performed on the transport by the two gathered
tasks while they run, and `taskErr` a non-send exception raised inside
`asyncio.gather`; both kinds of task failure are caught by the
`except Exception` clause and only logged.  The `finally` block then
performs the three closing sends with no exception handler of its own.
Returns the final transport state and the exception (if any) propagating
out of `stream_conversation` to its caller. -/
def stream_conversation (tr : Transport) (p c ac sys : String)
    (taskEvs : List WireEvent) (taskErr : Option String) : TState × Option String :=
  match sendSeq tr (handshakeEvents p c ac sys) ⟨[], 0⟩ with
  | (s, some e) => (s, some e)
  | (s1, none) =>
      let gathered := sendSeq tr taskEvs s1
      let s2 := gathered.1
      let _swallowed : Option String :=
        match gathered.2 with
        | some e => some e
        | none => taskErr
      match send1 tr (WireEvent.contentEnd p ac) s2 with
      | (s3, some e) => (s3, some e)
      | (s3, none) =>
          match send1 tr (WireEvent.promptEnd p) s3 with
          | (s4, some e) => (s4, some e)
          | (s4, none) =>
              match send1 tr WireEvent.sessionEnd s4 with
              | (s5, some e) => (s5, some e)
              | (s5, none) => (s5, none)

/-! ## Tool gateway (`GatewayClient.invoke_tool`) -/

/-- The dictionary returned by `GatewayClient.invoke_tool`: on success the
keys are `success`, `result`, `latency_ms`; on failure `success`,
`error`, `latency_ms` (no `result` key).  Absent keys are `none`. -/
structure GatewayResult where
  success : Bool
  result : Option JVal
  error : Option String
  latency_ms : Int

/-- Embeds `GatewayClient.invoke_tool` (gateway.py lines 99-126).
`callResult` is the outcome of `self._call_mcp("tools/invoke", ...)`
(`Except.error` for any exception it raises, OAuth failures included);
`startMs` and `endMs` are the two `time.time()` readings in integer
milliseconds, so `int((time.time() - start_time) * 1000)` is
`endMs - startMs`.  Both branches return a structured dictionary; no
exception escapes. -/
def invoke_tool (callResult : Except String JVal) (startMs endMs : Int) :
    GatewayResult :=
  match callResult with
  | Except.ok r =>
      { success := true, result := some r, error := none,
        latency_ms := endMs - startMs }
  | Except.error e =>
      { success := false, result := none, error := some e,
        latency_ms := endMs - startMs }

/-! ## Output event dispatcher (`_process_output_events`, lines 245-336) -/

/-- The payload of a `toolUse` event: `event['toolUse']` with its
`toolUseId`, `toolName` and `content` fields; `content` is modelled
already parsed (the source parses the raw JSON string at each use via
`json.loads(tool_content.get('content', '{}'))`). -/
structure ToolUsePayload where
  toolUseId : String
  toolName : String
  content : JVal

/-- One iteration's worth of input to the dispatch loop: the decoded form
of the chunk obtained from `await output[1].receive()`.
- `emptyChunk`: `result.value` or its bytes are falsy — nothing happens;
- `malformed`: decoding or handling the chunk raises (invalid JSON,
  missing required fields) — caught by `except Exception`, loop breaks;
- `noEventKey`: valid JSON without an `event` key — `continue`;
- `unknown`: an `event` whose kind matches no branch — ignored;
- the remaining constructors are the recognized event kinds. -/
inductive ModelEvent where
  | audioOutput (content : String) : ModelEvent
  | toolUse (payload : ToolUsePayload) : ModelEvent
  | contentEndTool : ModelEvent
  | contentEndOther : ModelEvent
  | textOutput (role content : String) : ModelEvent
  | completionEnd : ModelEvent
  | unknown : ModelEvent
  | noEventKey : ModelEvent
  | malformed : ModelEvent
  | emptyChunk : ModelEvent

/-- The loop-local mutable variables of `_process_output_events`
(`tool_use_id`, `tool_name`, `tool_content`, initialized to `None`),
plus `nameIdx`, an index into the stream of fresh `uuid4` content names
drawn for tool-result blocks. -/
structure DispatchState where
  tool_use_id : Option String
  tool_name : Option String
  tool_content : Option ToolUsePayload
  nameIdx : Nat

/-- The initial dispatcher state (all three variables `None`). -/
def initDispatchState : DispatchState :=
  { tool_use_id := none, tool_name := none, tool_content := none, nameIdx := 0 }

/-- A row written to the tools table by `db.add_tool_call`
(dynamodb.py `add_tool_call`), keyword for keyword. -/
structure ToolCallRecord where
  session_id : String
  tool_name : String
  input : JVal
  output : JVal
  latency_ms : Int
  status : String

/-- A message sent to the client websocket by the dispatcher:
`send_bytes` of decoded audio (carried here as the base64 content it
decodes), or one of the two `send_json` tool notifications. -/
inductive ClientMsg where
  | audioB64 (content : String) : ClientMsg
  | toolCallStart (tool : String) (input : JVal) : ClientMsg
  | toolCallEnd (tool : String) (result : JVal) (latency_ms : Int) : ClientMsg

/-- Everything the dispatcher emitted: persisted tool-call records, wire
events sent back on the model transport, client websocket messages, and
transcript rows written by `db.add_message` as (lower-cased role, text). -/
structure DispatchOut where
  records : List ToolCallRecord
  sends : List WireEvent
  msgs : List ClientMsg
  turns : List (String × String)

/-- The empty dispatcher output. -/
def DispatchOut.empty : DispatchOut := ⟨[], [], [], []⟩

/-- Concatenation of dispatcher outputs, componentwise and in order. -/
def mergeOut (a b : DispatchOut) : DispatchOut :=
  ⟨a.records ++ b.records, a.sends ++ b.sends, a.msgs ++ b.msgs, a.turns ++ b.turns⟩

/-- Prepend one iteration's output to the rest of the run. -/
def prependOut (a : DispatchOut) (rest : DispatchOut × DispatchState) :
    DispatchOut × DispatchState :=
  (mergeOut a rest.1, rest.2)

/-- Embeds `_process_output_events` (bedrock_streaming.py lines 245-336)
as a fold over the received events.  `gw` is `gateway.invoke_tool`,
`resultName` the stream of fresh `uuid4` tool-result content names,
`sid` the session id and `pname` the prompt name.  Branches follow the
source: audio forwarded to the client; `toolUse` captured into the three
variables and announced; `contentEnd` of type `TOOL` with truthy
`tool_name` and `tool_content` invokes the gateway, persists a record,
injects the result as a contentStart/toolResult/contentEnd triple and
notifies the client — without clearing the three variables; text output
appended to the transcript; `completionEnd` breaks; a raising chunk
breaks via `except Exception`; everything else continues. -/
def process_output_events (gw : String → JVal → GatewayResult)
    (resultName : Nat → String) (sid pname : String) :
    List ModelEvent → DispatchState → DispatchOut × DispatchState
  | [], st => (DispatchOut.empty, st)
  | ev :: rest, st =>
      match ev with
      | ModelEvent.emptyChunk =>
          process_output_events gw resultName sid pname rest st
      | ModelEvent.malformed => (DispatchOut.empty, st)
      | ModelEvent.noEventKey =>
          process_output_events gw resultName sid pname rest st
      | ModelEvent.audioOutput c =>
          prependOut ⟨[], [], [ClientMsg.audioB64 c], []⟩
            (process_output_events gw resultName sid pname rest st)
      | ModelEvent.toolUse pl =>
          prependOut ⟨[], [], [ClientMsg.toolCallStart pl.toolName pl.content], []⟩
            (process_output_events gw resultName sid pname rest
              { st with tool_use_id := some pl.toolUseId,
                        tool_name := some pl.toolName,
                        tool_content := some pl })
      | ModelEvent.contentEndTool =>
          match st.tool_name, st.tool_content with
          | some n, some tc =>
              if n.isEmpty then
                process_output_events gw resultName sid pname rest st
              else
                let r := gw n tc.content
                let out := r.result.getD (JVal.obj [])
                let cname := resultName st.nameIdx
                prependOut
                  ⟨[⟨sid, n, tc.content, out, r.latency_ms,
                      if r.success then "success" else "failed"⟩],
                   [WireEvent.contentStartTool pname cname (st.tool_use_id.getD ""),
                    WireEvent.toolResult pname cname (jdump out),
                    WireEvent.contentEnd pname cname],
                   [ClientMsg.toolCallEnd n out r.latency_ms], []⟩
                  (process_output_events gw resultName sid pname rest
                    { st with nameIdx := st.nameIdx + 1 })
          | _, _ => process_output_events gw resultName sid pname rest st
      | ModelEvent.contentEndOther =>
          process_output_events gw resultName sid pname rest st
      | ModelEvent.textOutput role text =>
          prependOut ⟨[], [], [], [(role.toLower, text)]⟩
            (process_output_events gw resultName sid pname rest st)
      | ModelEvent.completionEnd => (DispatchOut.empty, st)
      | ModelEvent.unknown =>
          process_output_events gw resultName sid pname rest st

/-- Specification-side count of `toolUse` announcements in a trace. -/
def countToolUse : List ModelEvent → Nat
  | [] => 0
  | ModelEvent.toolUse _ :: rest => 1 + countToolUse rest
  | _ :: rest => countToolUse rest

/-- Specification-side expected output of one completed tool round trip:
one persisted record, one injected contentStart/toolResult/contentEnd
triple correlated by `toolUseId`, one client notification. -/
def toolRoundOut (sid pname cname toolUseId toolName : String) (input : JVal)
    (r : GatewayResult) : DispatchOut :=
  { records := [⟨sid, toolName, input, r.result.getD (JVal.obj []), r.latency_ms,
                 if r.success then "success" else "failed"⟩],
    sends := [WireEvent.contentStartTool pname cname toolUseId,
              WireEvent.toolResult pname cname (jdump (r.result.getD (JVal.obj []))),
              WireEvent.contentEnd pname cname],
    msgs := [ClientMsg.toolCallEnd toolName (r.result.getD (JVal.obj [])) r.latency_ms],
    turns := [] }

/-! ## Session store (`dynamodb.py`) and websocket handler (`websocket.py`) -/

/-- A row of the sessions table, with the fields `update_session_state`
touches. -/
structure SessionItem where
  session_id : String
  start_time : Int
  state : String
  last_updated : Int

/-- Embeds `DynamoDBService.get_session`: query by `session_id`, sorted
by the `start_time` range key descending, limit 1 — the matching item
with the greatest `start_time`, or `None` (also returned on any query
error). -/
def get_session (store : List SessionItem) (sid : String) : Option SessionItem :=
  (store.filter (fun it => it.session_id = sid)).foldl
    (fun best it =>
      match best with
      | none => some it
      | some b => if b.start_time < it.start_time then some it else some b)
    none

/-- Embeds `DynamoDBService.update_session_state` (dynamodb.py lines
47-57).  The first statement is
`start_time = self.get_session(session_id)['start_time']`: when
`get_session` returns `None` this raises `TypeError`, which propagates
to the caller.  Otherwise the matching row's `state` and `last_updated`
are updated. -/
def update_session_state (store : List SessionItem) (sid newState : String)
    (now : Int) : Except String (List SessionItem) :=
  match get_session store sid with
  | none => Except.error "TypeError: NoneType object is not subscriptable"
  | some it =>
      Except.ok (store.map (fun j =>
        if j.session_id = sid ∧ j.start_time = it.start_time then
          { j with state := newState, last_updated := now }
        else j))

/-- How the call to `bedrock.stream_conversation` inside
`handle_audio_stream` ends: normal return, a `WebSocketDisconnect`, or
any other exception with its message. -/
inductive StreamOutcome where
  | ok : StreamOutcome
  | wsDisconnect : StreamOutcome
  | err (msg : String) : StreamOutcome

/-- Observable effects of one `handle_audio_stream` call. -/
structure HandlerTrace where
  markerSet : Bool
  errorMsgSent : Bool
  markedEnded : Bool
  markerCleared : Bool
  raised : Option String

/-- Embeds `WebSocketHandler.handle_audio_stream` (websocket.py lines
13-63) from the point after `websocket.accept()`.  The active marker is
set (cache.set, line 20); the streaming call's outcome is handled by the
two `except` clauses (`WebSocketDisconnect` logged; other exceptions
logged and an error message sent to the client, which itself may raise —
`errSendFails`); then the `finally` block runs
`db.update_session_state(session_id, "ended")` followed by
`cache.delete(f"session_active:...")`.  `update_session_state` raising
aborts the `finally` block before `cache.delete`, so the marker is not
cleared; `cache.delete` itself never raises (RedisCache.delete swallows
its errors). -/
def handle_audio_stream (store : List SessionItem) (sid : String)
    (outcome : StreamOutcome) (errSendFails : Bool) (now : Int) : HandlerTrace :=
  let handled : Bool × Option String :=
    match outcome with
    | StreamOutcome.ok => (false, none)
    | StreamOutcome.wsDisconnect => (false, none)
    | StreamOutcome.err _ =>
        if errSendFails then (false, some "send_json raised")
        else (true, none)
  match update_session_state store sid "ended" now with
  | Except.error m =>
      { markerSet := true, errorMsgSent := handled.1,
        markedEnded := false, markerCleared := false, raised := some m }
  | Except.ok _ =>
      { markerSet := true, errorMsgSent := handled.1,
        markedEnded := true, markerCleared := true, raised := handled.2 }

/-! ## Send-side concurrency (`_send_raw_event` under two tasks)

`stream_conversation` schedules `_process_audio_input` (task 0, the input
relay) and `_process_output_events` (task 1, the dispatcher) with
`asyncio.create_task`; both call `_send_raw_event`, which performs
`await stream_response.input_stream.send(event)` directly on the shared
stream.  A send is therefore two scheduler-visible steps — initiating the
send and the completion of the awaited operation — with a suspension
point between them, and the step alphabet also contains mutex
acquire/release steps so that their absence from the embedded send is
meaningful. -/

/-- Atomic scheduler-visible steps of sending on the shared transport. -/
inductive SendStep where
  | acquireLock (task : Nat) : SendStep
  | releaseLock (task : Nat) : SendStep
  | beginSend (task : Nat) : SendStep
  | endSend (task : Nat) : SendStep
deriving DecidableEq

/-- Whether a step is a mutex operation. -/
def isLockStep : SendStep → Bool
  | SendStep.acquireLock _ => true
  | SendStep.releaseLock _ => true
  | _ => false

/-- Embeds one `_send_raw_event` call by task `t` (lines 116-121): it
builds the chunk and awaits `input_stream.send` — no lock is acquired or
released anywhere in the source. -/
def send_raw_event_steps (t : Nat) : List SendStep :=
  [SendStep.beginSend t, SendStep.endSend t]

/-- All interleavings of two step sequences: the schedules the event loop
may produce for two concurrently scheduled tasks. -/
def interleavings : List SendStep → List SendStep → List (List SendStep)
  | [], ys => [ys]
  | x :: xs, [] => [x :: xs]
  | x :: xs, y :: ys =>
      (interleavings xs (y :: ys)).map (fun t => x :: t) ++
      (interleavings (x :: xs) ys).map (fun t => y :: t)
termination_by a b => a.length + b.length

/-- Detects two sends in flight at once: a `beginSend` occurring while
another send has begun and not yet ended. -/
def hasOverlappingSends : List SendStep → Nat → Bool
  | [], _ => false
  | SendStep.beginSend _ :: rest, inFlight =>
      if 1 ≤ inFlight then true else hasOverlappingSends rest (inFlight + 1)
  | SendStep.endSend _ :: rest, inFlight =>
      hasOverlappingSends rest (inFlight - 1)
  | _ :: rest, inFlight => hasOverlappingSends rest inFlight

/-! ## Concrete instances used in counterexamples and witnesses -/

/-- A transport on which every send is delivered. -/
def trOk : Transport := ⟨fun _ => none⟩

/-- A transport whose seventh send attempt (index 6, the first teardown
send after the six handshake events) raises. -/
def trBoom6 : Transport := ⟨fun n => if n = 6 then some "boom" else none⟩

/-- A gateway stub whose calls succeed with an empty result object after
one millisecond. -/
def gwOk : String → JVal → GatewayResult :=
  fun _ _ => { success := true, result := some (JVal.obj []), error := none,
               latency_ms := 1 }

/-- A supply of distinct tool-result content names (stands in for the
`uuid4` draws). -/
def rcName : Nat → String := fun n => "rc-" ++ toString n

/-- A sample `toolUse` payload. -/
def demoToolUse : ToolUsePayload :=
  { toolUseId := "tu-1", toolName := "send_email", content := JVal.obj [] }

/-! ## Helper lemmas -/

/-- On a transport that delivers every send, a send sequence appends its
events and raises nothing. -/
theorem sendSeq_reliable (tr : Transport) (h : ∀ n, tr.res n = none)
    (evs : List WireEvent) (s : TState) :
    sendSeq tr evs s = (⟨s.sent ++ evs, s.idx + evs.length⟩, none) := by
  induction evs generalizing s with
  | nil => simp [sendSeq]
  | cons e rest ih =>
      simp only [sendSeq, send1, h, ih, List.length_cons]
      congr 2
      · simp
      · omega

/-- On a transport that delivers every send, `stream_conversation`
delivers the handshake, the task sends, and the three closing events,
and returns normally whatever error the gathered tasks raised. -/
theorem stream_conversation_reliable (tr : Transport) (h : ∀ n, tr.res n = none)
    (p c ac sys : String) (taskEvs : List WireEvent) (taskErr : Option String) :
    stream_conversation tr p c ac sys taskEvs taskErr =
      (⟨handshakeEvents p c ac sys ++ taskEvs ++
          [WireEvent.contentEnd p ac, WireEvent.promptEnd p, WireEvent.sessionEnd],
        taskEvs.length + 9⟩, none) := by
  simp only [stream_conversation, sendSeq_reliable tr h, send1, h]
  congr 2
  · simp
  · simp [handshakeEvents]; omega

/-- One `toolUse` iteration: the three loop variables are overwritten with
the announcement's fields and the client is notified. -/
theorem dispatch_toolUse (gw : String → JVal → GatewayResult) (rn : Nat → String)
    (sid pname : String) (rest : List ModelEvent) (st : DispatchState)
    (pl : ToolUsePayload) :
    process_output_events gw rn sid pname (ModelEvent.toolUse pl :: rest) st =
      prependOut ⟨[], [], [ClientMsg.toolCallStart pl.toolName pl.content], []⟩
        (process_output_events gw rn sid pname rest
          { st with tool_use_id := some pl.toolUseId,
                    tool_name := some pl.toolName,
                    tool_content := some pl }) := rfl

/-- One `contentEnd`-of-type-TOOL iteration with a live (truthy) pending
tool state: exactly one gateway invocation, one persisted record, one
injected result block correlated by the stored tool-use id, and one
client notification are produced, and the three loop variables are left
unchanged. -/
theorem dispatch_toolRound (gw : String → JVal → GatewayResult) (rn : Nat → String)
    (sid pname : String) (rest : List ModelEvent) (st : DispatchState)
    (uid n : String) (tc : ToolUsePayload)
    (h1 : st.tool_use_id = some uid) (h2 : st.tool_name = some n)
    (h3 : st.tool_content = some tc) (h4 : n ≠ "") :
    process_output_events gw rn sid pname (ModelEvent.contentEndTool :: rest) st =
      prependOut
        (toolRoundOut sid pname (rn st.nameIdx) uid n tc.content (gw n tc.content))
        (process_output_events gw rn sid pname rest
          { st with nameIdx := st.nameIdx + 1 }) := by
  have he : n.isEmpty = false := by
    cases hne : n.isEmpty
    · rfl
    · exact absurd ((String.isEmpty_iff n).mp hne) h4
  simp only [process_output_events, h1, h2, h3, he, toolRoundOut,
    Option.getD_some, Bool.false_eq_true, if_false]

/-! ## Claims -/

/-- Claim C2, counterexample: `stream_conversation` does not return
normally in all cases — when the first closing send (the audio
`contentEnd`, attempt index 6 right after the six handshake events)
raises, the exception propagates to the caller and neither `promptEnd`
nor `sessionEnd` is attempted, because the `finally` block's three sends
have no exception handler of their own. -/
theorem C2_counterexample :
    (stream_conversation trBoom6 "p1" "c1" "a1" "sys" [] none).2 = some "boom" ∧
    WireEvent.promptEnd "p1" ∉
      (stream_conversation trBoom6 "p1" "c1" "a1" "sys" [] none).1.sent ∧
    WireEvent.sessionEnd ∉
      (stream_conversation trBoom6 "p1" "c1" "a1" "sys" [] none).1.sent := by
  refine ⟨rfl, ?_, ?_⟩ <;> decide

/-- Claim C2 (amended): `stream_conversation` swallows any error raised
by the gathered relay and dispatcher tasks and then attempts the full
teardown; when every send on the transport succeeds it returns normally
— whatever the task error was — having sent the handshake, the task
events, and the three closing events.  A failure in a handshake send or
in one of the closing sends, however, propagates to the caller and
aborts the remaining sends. -/
theorem C2_theorem (tr : Transport) (h : ∀ n, tr.res n = none)
    (p c ac sys : String) (taskEvs : List WireEvent) (taskErr : Option String) :
    stream_conversation tr p c ac sys taskEvs taskErr =
      (⟨handshakeEvents p c ac sys ++ taskEvs ++
          [WireEvent.contentEnd p ac, WireEvent.promptEnd p, WireEvent.sessionEnd],
        taskEvs.length + 9⟩, none) :=
  stream_conversation_reliable tr h p c ac sys taskEvs taskErr

/-- Witness for C2: on a reliable transport, even when the gathered tasks
raise, the coordinator returns normally with the three closing events
sent. -/
theorem C2_witness :
    (∀ n, trOk.res n = none) ∧
    stream_conversation trOk "p1" "c1" "a1" "sys" [] (some "task crashed") =
      (⟨handshakeEvents "p1" "c1" "a1" "sys" ++ [] ++
          [WireEvent.contentEnd "p1" "a1", WireEvent.promptEnd "p1",
           WireEvent.sessionEnd],
        9⟩, none) := by
  exact ⟨fun _ => rfl,
    C2_theorem trOk (fun _ => rfl) "p1" "c1" "a1" "sys" [] (some "task crashed")⟩

/-- Claim C3: on any session whose transport accepts the sends, the event
sequence sent to the model transport begins with `sessionStart`,
`promptStart`, `contentStart` of type TEXT, `textInput` carrying the
system prompt, the `contentEnd` closing that text content, and
`contentStart` of type AUDIO — in that order, whatever the two tasks
later send and however the tasks end. -/
theorem C3_theorem (tr : Transport) (h : ∀ n, tr.res n = none)
    (p c ac sys : String) (taskEvs : List WireEvent) (taskErr : Option String) :
    ((stream_conversation tr p c ac sys taskEvs taskErr).1.sent).take 6 =
      [WireEvent.sessionStart, WireEvent.promptStart p,
       WireEvent.contentStartText p c, WireEvent.textInput p c sys,
       WireEvent.contentEnd p c, WireEvent.contentStartAudio p ac] := by
  rw [stream_conversation_reliable tr h p c ac sys taskEvs taskErr]
  simp [handshakeEvents]

/-- Witness for C3: a concrete session with one audio task send and a
task error still opens with the six handshake events. -/
theorem C3_witness :
    (∀ n, trOk.res n = none) ∧
    ((stream_conversation trOk "p1" "c1" "a1" "sys"
        [WireEvent.audioInput "p1" "a1" "QUJD"] (some "err")).1.sent).take 6 =
      [WireEvent.sessionStart, WireEvent.promptStart "p1",
       WireEvent.contentStartText "p1" "c1", WireEvent.textInput "p1" "c1" "sys",
       WireEvent.contentEnd "p1" "c1", WireEvent.contentStartAudio "p1" "a1"] := by
  exact ⟨fun _ => rfl,
    C3_theorem trOk (fun _ => rfl) "p1" "c1" "a1" "sys"
      [WireEvent.audioInput "p1" "a1" "QUJD"] (some "err")⟩

/-- Claim C4, counterexample: a chunk whose decoding raises (invalid
JSON or missing fields) does not merely get skipped — the
`except Exception` handler breaks the dispatch loop, so a well-formed
`textOutput` event arriving right after the malformed chunk is never
processed, whereas on its own it would be. -/
theorem C4_counterexample :
    (process_output_events gwOk rcName "s1" "p1"
        [ModelEvent.malformed, ModelEvent.textOutput "ASSISTANT" "hello"]
        initDispatchState).1.turns.length = 0 ∧
    (process_output_events gwOk rcName "s1" "p1"
        [ModelEvent.textOutput "ASSISTANT" "hello"]
        initDispatchState).1.turns.length = 1 :=
  ⟨rfl, rfl⟩

/-- Claim C4 (amended): the dispatcher skips — and keeps consuming after
— events of an unrecognized kind, payloads without an `event` key,
empty chunks, and `contentEnd` events of non-TOOL type; but a payload
whose decoding or handling raises terminates the loop at once, as do a
`completionEnd` event and exhaustion of the stream. -/
theorem C4_theorem (gw : String → JVal → GatewayResult) (rn : Nat → String)
    (sid pname : String) (rest : List ModelEvent) (st : DispatchState) :
    process_output_events gw rn sid pname (ModelEvent.unknown :: rest) st =
      process_output_events gw rn sid pname rest st ∧
    process_output_events gw rn sid pname (ModelEvent.noEventKey :: rest) st =
      process_output_events gw rn sid pname rest st ∧
    process_output_events gw rn sid pname (ModelEvent.emptyChunk :: rest) st =
      process_output_events gw rn sid pname rest st ∧
    process_output_events gw rn sid pname (ModelEvent.contentEndOther :: rest) st =
      process_output_events gw rn sid pname rest st ∧
    process_output_events gw rn sid pname (ModelEvent.malformed :: rest) st =
      (DispatchOut.empty, st) ∧
    process_output_events gw rn sid pname (ModelEvent.completionEnd :: rest) st =
      (DispatchOut.empty, st) ∧
    process_output_events gw rn sid pname [] st = (DispatchOut.empty, st) :=
  ⟨rfl, rfl, rfl, rfl, rfl, rfl, rfl⟩

/-- Claim C6, counterexample: the relay does not forward one `audioInput`
event per binary frame — an empty binary frame is yielded by the
websocket generator but dropped by the `if audio_chunk:` truthiness
guard in `_process_audio_input`, so one binary frame produces zero
events. -/
theorem C6_counterexample :
    (process_audio_input "p1" "a1"
        (audio_input_stream [ClientFrame.binary []])).length = 0 ∧
    binaryFrameCount [ClientFrame.binary []] = 1 :=
  ⟨rfl, rfl⟩

/-- Claim C6 (amended): the relay forwards exactly one `audioInput` event
per non-empty binary frame arriving before the end signal (or
disconnect), in arrival order, each carrying the base64 encoding of the
frame's bytes; empty binary frames are silently dropped, and no event is
forwarded for any frame after an `end` control message. -/
theorem C6_theorem (p c : String) (frames : List ClientFrame) :
    process_audio_input p c (audio_input_stream frames) =
      (forwardedContents frames).map
        (fun d => WireEvent.audioInput p c (b64Encode d)) := by
  induction frames with
  | nil => rfl
  | cons f rest ih =>
      cases f with
      | binary d =>
          by_cases hd : d.isEmpty <;>
            simp [audio_input_stream, process_audio_input, forwardedContents, hd, ih]
      | control ty =>
          by_cases ht : ty = "end" <;>
            simp [audio_input_stream, process_audio_input, forwardedContents, ht, ih]
      | badText => rfl
      | disconnect => rfl

/-- Claim C7, counterexample: with the session row absent from the store
(for example expired or never created), a client disconnect exits
through the `finally` block, `update_session_state` raises on
`self.get_session(session_id)['start_time']`, and `cache.delete` is
never reached — the session-active marker is not cleared. -/
theorem C7_counterexample :
    (handle_audio_stream [] "s1" StreamOutcome.wsDisconnect false 0).markerCleared
      = false ∧
    (handle_audio_stream [] "s1" StreamOutcome.wsDisconnect false 0).raised
      = some "TypeError: NoneType object is not subscriptable" :=
  ⟨rfl, rfl⟩

/-- Claim C7 (amended): every exit of the streaming call — normal return,
client disconnect, or any other error — reaches the handler's `finally`
block, which first marks the session ended in the persistence layer and
then clears the session-active marker; the marker is cleared exactly
when the persistence update succeeds, i.e. when the session row exists,
and a raising update skips the clearing. -/
theorem C7_theorem (store : List SessionItem) (sid : String)
    (outcome : StreamOutcome) (errSendFails : Bool) (now : Int) :
    (handle_audio_stream store sid outcome errSendFails now).markerCleared =
      (get_session store sid).isSome ∧
    (handle_audio_stream store sid outcome errSendFails now).markedEnded =
      (get_session store sid).isSome := by
  cases h : get_session store sid <;>
    simp [handle_audio_stream, update_session_state, h]

/-- Claim C9: `_send_raw_event` contains no mutex operation and no
owned-writer indirection — each task sends directly on the shared
stream — and among the schedules of the relay's send and the
dispatcher's send there is one in which the two sends overlap (the
second begins while the first is still awaited), so sends are not
serialized by the code. -/
theorem C9_theorem :
    ((send_raw_event_steps 0 ++ send_raw_event_steps 1).all
        (fun s => !(isLockStep s))) = true ∧
    ∃ tr, tr ∈ interleavings (send_raw_event_steps 0) (send_raw_event_steps 1) ∧
      hasOverlappingSends tr 0 = true := by
  refine ⟨rfl, [SendStep.beginSend 0, SendStep.beginSend 1,
                SendStep.endSend 0, SendStep.endSend 1], ?_, rfl⟩
  simp [interleavings, send_raw_event_steps]

/-- Claim C1, counterexample: the pending tool state is never cleared by
the dispatcher — after one `toolUse` announcement, two successive
`contentEnd`-of-type-TOOL events (the second not preceded by any fresh
`toolUse`) produce two gateway invocations and two persisted records
and two injected result blocks, not one. -/
theorem C1_counterexample :
    (process_output_events gwOk rcName "s1" "p1"
        [ModelEvent.toolUse demoToolUse, ModelEvent.contentEndTool,
         ModelEvent.contentEndTool] initDispatchState).1.records.length = 2 ∧
    (process_output_events gwOk rcName "s1" "p1"
        [ModelEvent.toolUse demoToolUse, ModelEvent.contentEndTool,
         ModelEvent.contentEndTool] initDispatchState).1.sends.length = 6 ∧
    countToolUse
        [ModelEvent.toolUse demoToolUse, ModelEvent.contentEndTool,
         ModelEvent.contentEndTool] = 1 :=
  ⟨rfl, rfl, rfl⟩

/-- Claim C1 (amended): a `contentEnd` of type TOOL arriving while a
tool-use state is pending produces exactly one gateway invocation, one
persisted ToolInvocationRecord, and one injected result block correlated
by the pending tool-use identifier, before any later event is processed;
but the pending state (tool-use id, tool name, raw input payload) is not
cleared after the result is sent — it survives unchanged, so a later
`contentEnd` of type TOOL without a fresh `toolUse` announcement repeats
the invocation and injection with the stale state. -/
theorem C1_theorem (gw : String → JVal → GatewayResult) (rn : Nat → String)
    (sid pname : String) (st : DispatchState) (pl : ToolUsePayload)
    (h1 : st.tool_use_id = some pl.toolUseId)
    (h2 : st.tool_name = some pl.toolName)
    (h3 : st.tool_content = some pl)
    (h4 : pl.toolName ≠ "") :
    process_output_events gw rn sid pname [ModelEvent.contentEndTool] st =
      (toolRoundOut sid pname (rn st.nameIdx) pl.toolUseId pl.toolName pl.content
         (gw pl.toolName pl.content),
       { st with nameIdx := st.nameIdx + 1 }) := by
  rw [dispatch_toolRound gw rn sid pname [] st pl.toolUseId pl.toolName pl h1 h2 h3 h4]
  simp [prependOut, mergeOut, process_output_events, DispatchOut.empty]

/-- Witness for C1's amended theorem at a concrete pending state. -/
theorem C1_witness :
    ((⟨some "tu-1", some "send_email", some demoToolUse, 0⟩ : DispatchState).tool_use_id
        = some demoToolUse.toolUseId) ∧
    demoToolUse.toolName ≠ "" ∧
    process_output_events gwOk rcName "s1" "p1" [ModelEvent.contentEndTool]
        ⟨some "tu-1", some "send_email", some demoToolUse, 0⟩ =
      (toolRoundOut "s1" "p1" (rcName 0) demoToolUse.toolUseId demoToolUse.toolName
         demoToolUse.content (gwOk demoToolUse.toolName demoToolUse.content),
       ⟨some "tu-1", some "send_email", some demoToolUse, 1⟩) := by
  refine ⟨rfl, by decide, ?_⟩
  exact C1_theorem gwOk rcName "s1" "p1"
    ⟨some "tu-1", some "send_email", some demoToolUse, 0⟩ demoToolUse
    rfl rfl rfl (by decide)

/-- Claim C5: when the gateway call raises, `invoke_tool` returns a
structured result — success false, the error message, a latency — and no
exception reaches the dispatcher, which still persists a
ToolInvocationRecord with status "failed", still injects a result block
into the model transport, still notifies the client, and keeps
processing subsequent events (the session is not aborted). -/
theorem C5_theorem (e : String) (t0 t1 : Int) (rn : Nat → String)
    (sid pname : String) (pl : ToolUsePayload) (hn : pl.toolName ≠ "")
    (rest : List ModelEvent) (st : DispatchState) :
    (invoke_tool (Except.error e) t0 t1).success = false ∧
    (invoke_tool (Except.error e) t0 t1).error = some e ∧
    (invoke_tool (Except.error e) t0 t1).latency_ms = t1 - t0 ∧
    process_output_events (fun _ _ => invoke_tool (Except.error e) t0 t1) rn sid pname
        (ModelEvent.toolUse pl :: ModelEvent.contentEndTool :: rest) st =
      prependOut ⟨[], [], [ClientMsg.toolCallStart pl.toolName pl.content], []⟩
        (prependOut
          (toolRoundOut sid pname (rn st.nameIdx) pl.toolUseId pl.toolName
            pl.content (invoke_tool (Except.error e) t0 t1))
          (process_output_events (fun _ _ => invoke_tool (Except.error e) t0 t1)
            rn sid pname rest
            { st with tool_use_id := some pl.toolUseId,
                      tool_name := some pl.toolName,
                      tool_content := some pl, nameIdx := st.nameIdx + 1 })) ∧
    (toolRoundOut sid pname (rn st.nameIdx) pl.toolUseId pl.toolName pl.content
        (invoke_tool (Except.error e) t0 t1)).records.map
        (fun rec => rec.status) = ["failed"] := by
  refine ⟨rfl, rfl, rfl, ?_, rfl⟩
  rw [dispatch_toolUse]
  rw [dispatch_toolRound (fun _ _ => invoke_tool (Except.error e) t0 t1) rn sid pname
    rest _ pl.toolUseId pl.toolName pl rfl rfl rfl hn]

/-- Witness for C5 at a concrete failing gateway call. -/
theorem C5_witness :
    demoToolUse.toolName ≠ "" ∧
    ((invoke_tool (Except.error "gateway timeout") 2 7).success = false ∧
     (invoke_tool (Except.error "gateway timeout") 2 7).error = some "gateway timeout" ∧
     (invoke_tool (Except.error "gateway timeout") 2 7).latency_ms = 7 - 2 ∧
     process_output_events (fun _ _ => invoke_tool (Except.error "gateway timeout") 2 7)
        rcName "s1" "p1"
        (ModelEvent.toolUse demoToolUse :: ModelEvent.contentEndTool :: [])
        initDispatchState =
      prependOut ⟨[], [], [ClientMsg.toolCallStart demoToolUse.toolName
            demoToolUse.content], []⟩
        (prependOut
          (toolRoundOut "s1" "p1" (rcName initDispatchState.nameIdx)
            demoToolUse.toolUseId demoToolUse.toolName demoToolUse.content
            (invoke_tool (Except.error "gateway timeout") 2 7))
          (process_output_events
            (fun _ _ => invoke_tool (Except.error "gateway timeout") 2 7)
            rcName "s1" "p1" []
            ⟨some demoToolUse.toolUseId, some demoToolUse.toolName,
             some demoToolUse, initDispatchState.nameIdx + 1⟩)) ∧
     (toolRoundOut "s1" "p1" (rcName initDispatchState.nameIdx) demoToolUse.toolUseId
        demoToolUse.toolName demoToolUse.content
        (invoke_tool (Except.error "gateway timeout") 2 7)).records.map
        (fun rec => rec.status) = ["failed"]) := by
  refine ⟨by decide, ?_⟩
  exact C5_theorem "gateway timeout" 2 7 rcName "s1" "p1" demoToolUse (by decide) []
    initDispatchState

/-- Claim C8: for success and failure alike, the latency in the bridge's
result equals the measured duration between the two clock readings
around the gateway call, in milliseconds; it is non-negative whenever
the clock did not step backwards, and the very same value is persisted
in the ToolInvocationRecord and reported to the client. -/
theorem C8_theorem (callResult : Except String JVal) (t0 t1 : Int) (h : t0 ≤ t1)
    (rn : Nat → String) (sid pname : String) (pl : ToolUsePayload)
    (hn : pl.toolName ≠ "") (st : DispatchState) :
    (invoke_tool callResult t0 t1).latency_ms = t1 - t0 ∧
    0 ≤ (invoke_tool callResult t0 t1).latency_ms ∧
    ((process_output_events (fun _ _ => invoke_tool callResult t0 t1) rn sid pname
        [ModelEvent.toolUse pl, ModelEvent.contentEndTool] st).1.records.map
        (fun rec => rec.latency_ms)) = [t1 - t0] ∧
    ((process_output_events (fun _ _ => invoke_tool callResult t0 t1) rn sid pname
        [ModelEvent.toolUse pl, ModelEvent.contentEndTool] st).1.msgs) =
      [ClientMsg.toolCallStart pl.toolName pl.content,
       ClientMsg.toolCallEnd pl.toolName
         ((invoke_tool callResult t0 t1).result.getD (JVal.obj []))
         (t1 - t0)] := by
  have hl : (invoke_tool callResult t0 t1).latency_ms = t1 - t0 := by
    cases callResult <;> rfl
  refine ⟨hl, by rw [hl]; omega, ?_, ?_⟩ <;>
  · rw [dispatch_toolUse,
      dispatch_toolRound (fun _ _ => invoke_tool callResult t0 t1) rn sid pname
        [] _ pl.toolUseId pl.toolName pl rfl rfl rfl hn]
    simp [prependOut, mergeOut, toolRoundOut, process_output_events,
      DispatchOut.empty, hl]

/-- Witness for C8 at a concrete successful gateway call. -/
theorem C8_witness :
    (2 : Int) ≤ 7 ∧ demoToolUse.toolName ≠ "" ∧
    ((invoke_tool (Except.ok (JVal.obj [])) 2 7).latency_ms = 7 - 2 ∧
     0 ≤ (invoke_tool (Except.ok (JVal.obj [])) 2 7).latency_ms ∧
     ((process_output_events (fun _ _ => invoke_tool (Except.ok (JVal.obj [])) 2 7)
        rcName "s1" "p1"
        [ModelEvent.toolUse demoToolUse, ModelEvent.contentEndTool]
        initDispatchState).1.records.map (fun rec => rec.latency_ms)) = [7 - 2] ∧
     ((process_output_events (fun _ _ => invoke_tool (Except.ok (JVal.obj [])) 2 7)
        rcName "s1" "p1"
        [ModelEvent.toolUse demoToolUse, ModelEvent.contentEndTool]
        initDispatchState).1.msgs) =
      [ClientMsg.toolCallStart demoToolUse.toolName demoToolUse.content,
       ClientMsg.toolCallEnd demoToolUse.toolName
         ((invoke_tool (Except.ok (JVal.obj [])) 2 7).result.getD (JVal.obj []))
         (7 - 2)]) := by
  refine ⟨by decide, by decide, ?_⟩
  exact C8_theorem (Except.ok (JVal.obj [])) 2 7 (by decide) rcName "s1" "p1"
    demoToolUse (by decide) initDispatchState

/-- Claim C10: on a failed invocation the bridge's dictionary has an
`error` entry but no `result` entry, so the dispatcher's
`result.get("result", {})` yields the empty object everywhere: the
persisted record has status "failed" with empty output, the injected
`toolResult` content is the serialization of the empty object (the error
string never reaches the model transport), and the client's
`tool_call_end` carries the empty object as result. -/
theorem C10_theorem (e : String) (t0 t1 : Int) (rn : Nat → String)
    (sid pname : String) (pl : ToolUsePayload) (hn : pl.toolName ≠ "")
    (st : DispatchState) :
    (invoke_tool (Except.error e) t0 t1).result = none ∧
    (invoke_tool (Except.error e) t0 t1).error = some e ∧
    jdump (JVal.obj []) = "\x7b\x7d" ∧
    ((process_output_events (fun _ _ => invoke_tool (Except.error e) t0 t1) rn sid
        pname [ModelEvent.toolUse pl, ModelEvent.contentEndTool] st).1.records.map
        (fun rec => rec.output)) = [JVal.obj []] ∧
    ((process_output_events (fun _ _ => invoke_tool (Except.error e) t0 t1) rn sid
        pname [ModelEvent.toolUse pl, ModelEvent.contentEndTool] st).1.records.map
        (fun rec => rec.status)) = ["failed"] ∧
    ((process_output_events (fun _ _ => invoke_tool (Except.error e) t0 t1) rn sid
        pname [ModelEvent.toolUse pl, ModelEvent.contentEndTool] st).1.sends) =
      [WireEvent.contentStartTool pname (rn st.nameIdx) pl.toolUseId,
       WireEvent.toolResult pname (rn st.nameIdx) "\x7b\x7d",
       WireEvent.contentEnd pname (rn st.nameIdx)] ∧
    ((process_output_events (fun _ _ => invoke_tool (Except.error e) t0 t1) rn sid
        pname [ModelEvent.toolUse pl, ModelEvent.contentEndTool] st).1.msgs) =
      [ClientMsg.toolCallStart pl.toolName pl.content,
       ClientMsg.toolCallEnd pl.toolName (JVal.obj []) (t1 - t0)] := by
  have hj : jdump (JVal.obj []) = "\x7b\x7d" := by simp [jdump, jdumpFields]
  refine ⟨rfl, rfl, hj, ?_, ?_, ?_, ?_⟩ <;>
  · rw [dispatch_toolUse,
      dispatch_toolRound (fun _ _ => invoke_tool (Except.error e) t0 t1) rn sid pname
        [] _ pl.toolUseId pl.toolName pl rfl rfl rfl hn]
    simp [prependOut, mergeOut, toolRoundOut, process_output_events,
      DispatchOut.empty, invoke_tool, hj]

/-- Witness for C10 at a concrete failing gateway call. -/
theorem C10_witness :
    demoToolUse.toolName ≠ "" ∧
    ((invoke_tool (Except.error "boom") 2 7).result = none ∧
     (invoke_tool (Except.error "boom") 2 7).error = some "boom" ∧
     jdump (JVal.obj []) = "\x7b\x7d" ∧
     ((process_output_events (fun _ _ => invoke_tool (Except.error "boom") 2 7)
        rcName "s1" "p1" [ModelEvent.toolUse demoToolUse, ModelEvent.contentEndTool]
        initDispatchState).1.records.map (fun rec => rec.output)) = [JVal.obj []] ∧
     ((process_output_events (fun _ _ => invoke_tool (Except.error "boom") 2 7)
        rcName "s1" "p1" [ModelEvent.toolUse demoToolUse, ModelEvent.contentEndTool]
        initDispatchState).1.records.map (fun rec => rec.status)) = ["failed"] ∧
     ((process_output_events (fun _ _ => invoke_tool (Except.error "boom") 2 7)
        rcName "s1" "p1" [ModelEvent.toolUse demoToolUse, ModelEvent.contentEndTool]
        initDispatchState).1.sends) =
      [WireEvent.contentStartTool "p1" (rcName initDispatchState.nameIdx)
         demoToolUse.toolUseId,
       WireEvent.toolResult "p1" (rcName initDispatchState.nameIdx) "\x7b\x7d",
       WireEvent.contentEnd "p1" (rcName initDispatchState.nameIdx)] ∧
     ((process_output_events (fun _ _ => invoke_tool (Except.error "boom") 2 7)
        rcName "s1" "p1" [ModelEvent.toolUse demoToolUse, ModelEvent.contentEndTool]
        initDispatchState).1.msgs) =
      [ClientMsg.toolCallStart demoToolUse.toolName demoToolUse.content,
       ClientMsg.toolCallEnd demoToolUse.toolName (JVal.obj []) (7 - 2)]) := by
  refine ⟨by decide, ?_⟩
  exact C10_theorem "boom" 2 7 rcName "s1" "p1" demoToolUse (by decide)
    initDispatchState

end Robin
